import Mathlib

/-!
Shallow embedding of the versioduo/range firmware core (src/range.ino):
the bounds-checked configuration model (Device::importConfiguration,
Device::exportConfiguration) and the port-addressed routing logic
(MIDI::loop, Link::receiveSocket, Device::handleSend,
ProximitySensor::handleUpdate).

Machine integers are modelled as Nat with explicit `% 2^w` at the points
where the C++ code narrows a JSON value into a uint8_t / uint16_t; JSON
objects are modelled as records of `Option` fields (a missing key reads
as `none`; the ArduinoJson integer conversion of a missing key yields 0,
modelled by `Option.getD 0`).
-/

namespace Versioduo

/-- The sensor range block of the configuration record
(`V2VL53LX::Configuration`, fields used by this firmware: `n_steps`,
`min`, `max`, `detect`; the float filter coefficients `alpha`/`lag` are
opaque to this core and omitted). -/
structure RangeConfig where
  n_steps : Nat
  min : Nat
  max : Nat
  detect : Nat
deriving DecidableEq

/-- The `Device.config` struct written to EEPROM: zero-based MIDI
channel, controller number, sensor range block. -/
structure Config where
  channel : Nat
  controller : Nat
  range : RangeConfig
deriving DecidableEq

/-- The initializer of `Device.config` in the source:
`{.channel{}, .controller{V2MIDI::CC::GeneralPurpose1},
.range{.n_steps{128}, .min{10}, .max{500}, .detect{600}, ...}}`
(`V2MIDI::CC::GeneralPurpose1` is controller 16). -/
def defaultConfig : Config :=
  { channel := 0, controller := 16,
    range := { n_steps := 128, min := 10, max := 500, detect := 600 } }

/-- The `midi` sub-object of the raw configuration JSON. -/
structure RawMidi where
  channel : Option Nat
deriving DecidableEq

/-- The `range` sub-object of the raw configuration JSON. -/
structure RawRange where
  min : Option Nat
  max : Option Nat
  detect : Option Nat
deriving DecidableEq

/-- The raw configuration JSON document handed to
`Device::importConfiguration`. A `none` block models a key that is
absent (or not an object, which ArduinoJson's `JsonObject` conversion
also treats as null). -/
structure RawJson where
  midi : Option RawMidi
  controller : Option Nat
  range : Option RawRange
deriving DecidableEq

/-- Reading a JSON integer into a `uint8_t` variable. -/
def readU8 (v : Nat) : Nat := v % 256

/-- Reading a JSON integer into a `uint16_t` variable; a missing key
reads as 0. -/
def readU16 (o : Option Nat) : Nat := o.getD 0 % 65536

/-- `Device::importConfiguration` (src/range.ino lines 80-120), as a
state transformer on the stored configuration:
- `midi.channel`, when present, is read as uint8 and clamped from the
  one-based 1..16 range to the zero-based stored value;
- `controller`, when present, is read as uint8 and clamped to 127 from
  above;
- when a `range` block is present, `min`, `max`, `detect` are each read
  as uint16 (missing subkey = 0), validated in order
  (`min == 0 || min > 3000` resets min to 10; `max < min || max > 3000`
  resets max to 500; `detect < max || max > 3000` resets detect to 600,
  exactly as written in the source), and all three are stored together. -/
def importConfiguration (c : Config) (j : RawJson) : Config :=
  let c1 :=
    match j.midi with
    | none => c
    | some m =>
      match m.channel with
      | none => c
      | some v =>
        let channel := readU8 v
        if channel < 1 then { c with channel := 0 }
        else if channel > 16 then { c with channel := 15 }
        else { c with channel := channel - 1 }
  let c2 :=
    match j.controller with
    | none => c1
    | some v =>
      let ctl := readU8 v
      if ctl > 127 then { c1 with controller := 127 }
      else { c1 with controller := ctl }
  match j.range with
  | none => c2
  | some r =>
    let rmin :=
      let v := readU16 r.min
      if v = 0 ∨ v > 3000 then 10 else v
    let rmax :=
      let v := readU16 r.max
      if v < rmin ∨ v > 3000 then 500 else v
    let rdetect :=
      let v := readU16 r.detect
      if v < rmax ∨ rmax > 3000 then 600 else v
    { c2 with range := { c2.range with min := rmin, max := rmax, detect := rdetect } }

/-- `Device::exportConfiguration` (src/range.ino lines 122-139),
restricted to the configuration values: channel is exported one-based
(`config.channel + 1`), controller and the three range values verbatim.
The `#`-prefixed human-readable description strings the source emits
alongside carry no configuration values and are omitted. -/
def exportConfiguration (c : Config) : RawJson :=
  { midi := some { channel := some (c.channel + 1) },
    controller := some c.controller,
    range := some { min := some c.range.min,
                    max := some c.range.max,
                    detect := some c.range.detect } }

/-- A USB MIDI packet: the 4-bit cable/port field plus the rest of the
packet, which the routing code never inspects. -/
structure Packet where
  port : Nat
  data : List Nat
deriving DecidableEq

/-- The port translation applied by `MIDI::loop` when forwarding a
USB packet downstream: `_midi.setPort(_midi.getPort() - 1)`. -/
def portHopDown (port : Nat) : Nat := port - 1

/-- The address translation applied by `Link::receiveSocket` when
forwarding a child packet upstream: `_midi.setPort(address + 1)`. -/
def portHopUp (address : Nat) : Nat := address + 1

/-- The forwarding decision taken by `MIDI::loop` for one packet. -/
inductive MidiAction where
  | noPacket
  | dispatch (p : Packet)
  | socketSend (p : Packet)
deriving DecidableEq

/-- `MIDI::loop` (src/range.ino lines 174-185): pull at most one packet
from the USB endpoint; port 0 is dispatched to the local device, any
other port is forwarded to the downstream Socket link with the port
decremented by one. -/
def midiLoop : Option Packet → MidiAction
  | none => .noPacket
  | some p =>
    if p.port = 0 then .dispatch p
    else .socketSend { p with port := portHopDown p.port }

/-- The type tag of a serial link packet (`V2Link::Packet::Type`). -/
inductive LinkType where
  | midi
  | other
deriving DecidableEq

/-- A packet arriving on a serial link: type tag, 4-bit chain address,
and the MIDI payload obtained by `packet->receive(&_midi)`. -/
structure LinkPacket where
  type : LinkType
  address : Nat
  payload : Packet
deriving DecidableEq

/-- `Link::receiveSocket` (src/range.ino lines 208-220): for a MIDI
link packet bubbling up from a child, address `0x0f` is dropped;
otherwise, only when the USB connection is active, the payload is sent
to the USB endpoint with its port set to `address + 1`. The result is
the packet sent to USB, `none` when nothing is sent. -/
def receiveSocket (usbConnected : Bool) (p : LinkPacket) : Option Packet :=
  match p.type with
  | .midi =>
    if p.address = 0x0f then none
    else if usbConnected then some { p.payload with port := portHopUp p.address }
    else none
  | .other => none

/-- The sequence of packets emitted on the USB endpoint when a sequence
of Socket events is processed, each paired with the USB connection
state at the moment it arrives. `Link::receiveSocket` keeps no state
between packets (its only member is a scratch `_midi` buffer that is
overwritten on each receive), so the trace is the concatenation of the
per-packet results. -/
def socketTrace : List (Bool × LinkPacket) → List Packet
  | [] => []
  | (conn, p) :: rest => (receiveSocket conn p).toList ++ socketTrace rest

/-- Applying the downstream hop rule of `MIDI::loop` to a port value
`k` times (one decrement per hop). -/
def relayDownHops : Nat → Nat → Nat
  | 0, port => port
  | k + 1, port => relayDownHops k (portHopDown port)

/-- Applying the upstream hop rule of `Link::receiveSocket` to an
address value `k` times (one increment per hop). -/
def bubbleUpHops : Nat → Nat → Nat
  | 0, a => a
  | k + 1, a => bubbleUpHops k (portHopUp a)

/-- A destination an outbound packet is transmitted to. -/
inductive Dest where
  | usb
  | plug
deriving DecidableEq

/-- Modelled from the spec: `V2MIDI::Packet::setControlChange` (external
MIDI library) builds a control-change message associating a channel, a
controller number and a value, on a fresh packet whose port is 0. -/
def setControlChange (channel controller value : Nat) : Packet :=
  { port := 0, data := [0xB0 + channel % 16, controller, value] }

/-- `Device::handleSend` (src/range.ino lines 50-54): every outbound
packet is sent to the USB MIDI endpoint and to the upstream Plug link,
and the handler returns true. -/
def handleSend (p : Packet) : List (Dest × Packet) × Bool :=
  ([(.usb, p), (.plug, p)], true)

/-- `ProximitySensor::handleUpdate` (src/range.ino lines 165-168),
restricted to its MIDI output: each reading emits one control-change
event for the configured channel and controller carrying the step
value, through `Device.send`. Modelled from the spec: `V2Device::send`
(external base class) delegates each outbound packet to the device's
`handleSend` override. The `fraction` argument only drives the external
LED brightness side effect and is omitted. -/
def handleUpdate (cfg : Config) (step : Nat) : List (Dest × Packet) :=
  (handleSend (setControlChange cfg.channel cfg.controller step)).1

/-- The raw JSON document of the C5 import scenario. -/
def c5Input : RawJson :=
  { midi := some { channel := some 5 },
    controller := some 200,
    range := some { min := some 0, max := some 4000, detect := some 50 } }

/-- Claim C5: importing `{ "midi": {"channel": 5}, "controller": 200,
"range": {"min": 0, "max": 4000, "detect": 50} }` (from any prior
configuration) yields channel = 4, controller = 127, range.min = 10,
range.max = 500, range.detect = 600. -/
theorem C5_import_scenario (c : Config) :
    (importConfiguration c c5Input).channel = 4 ∧
    (importConfiguration c c5Input).controller = 127 ∧
    (importConfiguration c c5Input).range.min = 10 ∧
    (importConfiguration c c5Input).range.max = 500 ∧
    (importConfiguration c c5Input).range.detect = 600 := by
  simp [importConfiguration, c5Input, readU8, readU16]

/-- A raw JSON document whose range block gives a valid `min` of 600 and
omits `max` and `detect`. -/
def c1Input : RawJson :=
  { midi := none, controller := none,
    range := some { min := some 600, max := none, detect := none } }

/-- Claim C1, counterexample: importing a range block with min = 600 and
max absent stores min = 600 and max = 500 (the default is not re-checked
against min), so the claimed post-import invariant
`range.min < range.max ∧ range.detect ≥ range.max` is false. -/
theorem C1_counterexample :
    ¬ ((importConfiguration defaultConfig c1Input).range.min <
         (importConfiguration defaultConfig c1Input).range.max ∧
       (importConfiguration defaultConfig c1Input).range.max ≤
         (importConfiguration defaultConfig c1Input).range.detect) := by
  decide

/-- Claim C1 (amended): after an import whose input contains a range
block, the stored min and max lie in 1..3000 and detect is at least 1;
min ≤ max holds unless max was reset to its default 500, and
detect ≥ max holds unless detect was reset to its default 600. The
unconditional `min < max ∧ detect ≥ max` of the original claim does not
hold. -/
theorem C1_amended_invariant (c : Config) (j : RawJson) (r : RawRange)
    (h : j.range = some r) :
    1 ≤ (importConfiguration c j).range.min ∧
    (importConfiguration c j).range.min ≤ 3000 ∧
    1 ≤ (importConfiguration c j).range.max ∧
    (importConfiguration c j).range.max ≤ 3000 ∧
    1 ≤ (importConfiguration c j).range.detect ∧
    ((importConfiguration c j).range.min ≤ (importConfiguration c j).range.max ∨
      (importConfiguration c j).range.max = 500) ∧
    ((importConfiguration c j).range.max ≤ (importConfiguration c j).range.detect ∨
      (importConfiguration c j).range.detect = 600) := by
  simp only [importConfiguration, h]
  split_ifs <;> simp_all <;> omega

/-- Witness for C1 (amended) at the concrete input `c1Input`. -/
theorem C1_amended_invariant_witness :
    c1Input.range = some { min := some 600, max := none, detect := none } ∧
    (1 ≤ (importConfiguration defaultConfig c1Input).range.min ∧
     (importConfiguration defaultConfig c1Input).range.min ≤ 3000 ∧
     1 ≤ (importConfiguration defaultConfig c1Input).range.max ∧
     (importConfiguration defaultConfig c1Input).range.max ≤ 3000 ∧
     1 ≤ (importConfiguration defaultConfig c1Input).range.detect ∧
     ((importConfiguration defaultConfig c1Input).range.min ≤
        (importConfiguration defaultConfig c1Input).range.max ∨
       (importConfiguration defaultConfig c1Input).range.max = 500) ∧
     ((importConfiguration defaultConfig c1Input).range.max ≤
        (importConfiguration defaultConfig c1Input).range.detect ∨
       (importConfiguration defaultConfig c1Input).range.detect = 600)) :=
  ⟨rfl, C1_amended_invariant defaultConfig c1Input
    { min := some 600, max := none, detect := none } rfl⟩

/-- Claim C2: a USB packet with port N, relayed through K downstream
hops each applying the `MIDI::loop` port decrement, then bubbled back
up through K hops each applying the `Link::receiveSocket` address
increment, arrives back with port N, for 0 ≤ K ≤ N ≤ 14. -/
theorem C2_port_roundtrip (N K : Nat) (hK : K ≤ N) (hN : N ≤ 14) :
    bubbleUpHops K (relayDownHops K N) = N := by
  have hdown : ∀ k n, relayDownHops k n = n - k := by
    intro k
    induction k with
    | zero => intro n; rfl
    | succ k ih =>
      intro n
      rw [relayDownHops, ih]
      unfold portHopDown
      omega
  have hup : ∀ k n, bubbleUpHops k n = n + k := by
    intro k
    induction k with
    | zero => intro n; rfl
    | succ k ih =>
      intro n
      rw [bubbleUpHops, ih]
      unfold portHopUp
      omega
  rw [hdown, hup]
  omega

/-- Witness for C2 at N = 3, K = 2. -/
theorem C2_port_roundtrip_witness :
    2 ≤ 3 ∧ 3 ≤ 14 ∧ bubbleUpHops 2 (relayDownHops 2 3) = 3 :=
  ⟨by decide, by decide, C2_port_roundtrip 3 2 (by decide) (by decide)⟩

/-- Claim C3: a MIDI packet arriving on the downstream Socket link with
chain address 0xF is dropped — nothing is sent to the USB endpoint,
whatever the USB connection state and whatever the payload. -/
theorem C3_terminator_absorbing (connected : Bool) (m : Packet) :
    receiveSocket connected { type := .midi, address := 0x0f, payload := m } = none := by
  simp [receiveSocket]

/-- Claim C4: when the USB connection is not active, every Socket
packet is discarded (`receiveSocket` yields nothing and changes no
state), so the USB output trace of any event sequence is unchanged by
inserting the packet at any point — in particular nothing is emitted
for it after a later reconnection. -/
theorem C4_disconnected_drop (p : LinkPacket)
    (pre post : List (Bool × LinkPacket)) :
    receiveSocket false p = none ∧
    socketTrace (pre ++ (false, p) :: post) = socketTrace (pre ++ post) := by
  have hdrop : ∀ q : LinkPacket, receiveSocket false q = none := by
    intro q
    rcases q with ⟨t, a, m⟩
    cases t <;> simp [receiveSocket]
  refine ⟨hdrop p, ?_⟩
  induction pre with
  | nil => simp [socketTrace, hdrop p]
  | cons e rest ih =>
    rcases e with ⟨conn, q⟩
    simp [socketTrace, ih]

/-- Claim C6: for a configuration satisfying the validated invariants
(channel 0-15, controller 0-127, min, max, detect each in 1..3000 with
min < max ≤ detect), importing the exported document restores the same
channel, controller, min, max and detect. -/
theorem C6_round_trip (c : Config)
    (h1 : c.channel ≤ 15) (h2 : c.controller ≤ 127)
    (h3 : 1 ≤ c.range.min) (h4 : c.range.min < c.range.max)
    (h5 : c.range.max ≤ c.range.detect)
    (h6 : c.range.max ≤ 3000) (h7 : c.range.detect ≤ 3000) :
    (importConfiguration c (exportConfiguration c)).channel = c.channel ∧
    (importConfiguration c (exportConfiguration c)).controller = c.controller ∧
    (importConfiguration c (exportConfiguration c)).range.min = c.range.min ∧
    (importConfiguration c (exportConfiguration c)).range.max = c.range.max ∧
    (importConfiguration c (exportConfiguration c)).range.detect = c.range.detect := by
  obtain ⟨ch, ctl, ns, mn, mx, dt⟩ := c
  simp only [importConfiguration, exportConfiguration, readU8, readU16, Option.getD_some] at *
  split_ifs <;> simp_all <;> omega

/-- Witness for C6 at the boot-default configuration. -/
theorem C6_round_trip_witness :
    defaultConfig.channel ≤ 15 ∧ defaultConfig.controller ≤ 127 ∧
    1 ≤ defaultConfig.range.min ∧ defaultConfig.range.min < defaultConfig.range.max ∧
    defaultConfig.range.max ≤ defaultConfig.range.detect ∧
    defaultConfig.range.max ≤ 3000 ∧ defaultConfig.range.detect ≤ 3000 ∧
    ((importConfiguration defaultConfig (exportConfiguration defaultConfig)).channel =
        defaultConfig.channel ∧
      (importConfiguration defaultConfig (exportConfiguration defaultConfig)).controller =
        defaultConfig.controller ∧
      (importConfiguration defaultConfig (exportConfiguration defaultConfig)).range.min =
        defaultConfig.range.min ∧
      (importConfiguration defaultConfig (exportConfiguration defaultConfig)).range.max =
        defaultConfig.range.max ∧
      (importConfiguration defaultConfig (exportConfiguration defaultConfig)).range.detect =
        defaultConfig.range.detect) :=
  ⟨by decide, by decide, by decide, by decide, by decide, by decide, by decide,
    C6_round_trip defaultConfig (by decide) (by decide) (by decide) (by decide)
      (by decide) (by decide) (by decide)⟩

/-- A raw JSON document with valid min and max and detect = 3500,
greater than the documented 3000 bound. -/
def c7Input : RawJson :=
  { midi := none, controller := none,
    range := some { min := some 10, max := some 500, detect := some 3500 } }

/-- Claim C7: the declared 1..3000 bound on range.detect is NOT enforced
by the code; importing detect = 3500 (with valid min = 10, max = 500)
stores detect = 3500. The source's validation
`if (detect < max || max > 3000)` re-tests `max` — already forced to be
at most 3000 by the preceding line, so the condition is dead — where the
intended test is `detect > 3000`. -/
theorem C7_detect_escapes_bound :
    (importConfiguration defaultConfig c7Input).range.detect = 3500 := by
  decide

/-- Claim C8: for a packet received from the local USB endpoint,
`MIDI::loop` dispatches it to the local device when its port is 0, and
forwards it to the downstream Socket link with the port decremented by
exactly one and the data unchanged when its port is greater than 0. -/
theorem C8_usb_routing (p : Packet) :
    (p.port = 0 → midiLoop (some p) = .dispatch p) ∧
    (0 < p.port →
      midiLoop (some p) = .socketSend { port := p.port - 1, data := p.data }) := by
  constructor
  · intro h
    simp [midiLoop, h]
  · intro h
    have hz : ¬ p.port = 0 := by omega
    simp [midiLoop, hz, portHopDown]

/-- Witness for C8 at port 0 and at port 5. -/
theorem C8_usb_routing_witness :
    (midiLoop (some { port := 0, data := [176, 1, 2] }) =
      .dispatch { port := 0, data := [176, 1, 2] }) ∧
    (midiLoop (some { port := 5, data := [176, 1, 2] }) =
      .socketSend { port := 4, data := [176, 1, 2] }) :=
  ⟨(C8_usb_routing { port := 0, data := [176, 1, 2] }).1 rfl,
   (C8_usb_routing { port := 5, data := [176, 1, 2] }).2 (by decide)⟩

/-- Claim C9: every outbound packet handed to `Device::handleSend` is
transmitted both to the USB MIDI endpoint and to the upstream Plug
link, and each sensor reading emits its control-change event through
that same path — so it too reaches both destinations. -/
theorem C9_send_to_usb_and_plug (p : Packet) (cfg : Config) (step : Nat) :
    (handleSend p).1 = [(Dest.usb, p), (Dest.plug, p)] ∧
    handleUpdate cfg step =
      [(Dest.usb, setControlChange cfg.channel cfg.controller step),
       (Dest.plug, setControlChange cfg.channel cfg.controller step)] :=
  ⟨rfl, rfl⟩

/-- Claim C10: when the imported document contains a range block, each
absent subfield reads as 0, fails its validation, and is reset to its
default — min to 10, max to 500, detect to 600 — never left at its
prior stored value. -/
theorem C10_absent_subfields_default (c : Config) (j : RawJson) (r : RawRange)
    (h : j.range = some r) :
    (r.min = none → (importConfiguration c j).range.min = 10) ∧
    (r.max = none → (importConfiguration c j).range.max = 500) ∧
    (r.detect = none → (importConfiguration c j).range.detect = 600) := by
  simp only [importConfiguration, h]
  refine ⟨?_, ?_, ?_⟩ <;> intro hnone <;> simp only [hnone, readU16, Option.getD_none] <;>
    split_ifs <;> simp_all

/-- A raw JSON document whose range block is present but empty. -/
def c10Input : RawJson :=
  { midi := none, controller := none,
    range := some { min := none, max := none, detect := none } }

/-- Witness for C10 at a range block with all three subfields absent. -/
theorem C10_absent_subfields_default_witness :
    (c10Input.range = some { min := none, max := none, detect := none }) ∧
    ((importConfiguration defaultConfig c10Input).range.min = 10 ∧
     (importConfiguration defaultConfig c10Input).range.max = 500 ∧
     (importConfiguration defaultConfig c10Input).range.detect = 600) :=
  ⟨rfl,
   (C10_absent_subfields_default defaultConfig c10Input
      { min := none, max := none, detect := none } rfl).1 rfl,
   (C10_absent_subfields_default defaultConfig c10Input
      { min := none, max := none, detect := none } rfl).2.1 rfl,
   (C10_absent_subfields_default defaultConfig c10Input
      { min := none, max := none, detect := none } rfl).2.2 rfl⟩

end Versioduo
